import Mathlib

/-
Verification of the layout-transformation core of the BitBLAS repository:
the ladder-permutate builder (bitblas/ops/ladder_permutate/ladder_permutate_impl.py)
and the matmul layout selector (python/bitblas/ops/impl/matmul_impl.py).

Coordinate maps are embedded as evaluation functions on natural-number index
tuples; the dataflow programs built with te.compute are embedded as a shape
together with the composed per-element index function relating the output
tensor to the input tensor.
-/

/-- A TVM-style index map (tvm.tir.IndexMap): an ordered list of index
variables together with the mapping from index tuples to index tuples.  The
source holds symbolic expressions; here the mapping is its evaluation function
on concrete natural-number index tuples, and the variables are identified by
position. -/
structure IndexMap where
  initial_indices : List Nat
  map_indices : List Nat → List Nat

/-- Replace the last element of a list, as Python xs[:-1] + [v]. -/
def setLast (xs : List Nat) (v : Nat) : List Nat := xs.dropLast ++ [v]

/-- The last element of a list, 0 on the empty list (Python xs[-1] is only
ever taken on nonempty index tuples in the source). -/
def lastD (xs : List Nat) : Nat := xs.getLastD 0

/-- The scaling rewrite of ladder_permutate_impl.py lines 42-52 (and the
identical block at lines 54-64): build a new IndexMap with the same initial
indices whose output is obtained by multiplying the last input index by the
scaling factor before applying the original map, then floor-dividing the last
output coordinate by the scaling factor. -/
def scaleIndexMap (m : IndexMap) (s : Nat) : IndexMap where
  initial_indices := m.initial_indices
  map_indices := fun xs =>
    let ys := m.map_indices (setLast xs (lastD xs * s))
    setLast ys (lastD ys / s)

/-- Modelled from the spec: the ScalingAdapter contract of spec section 4.2 —
take the caller-supplied indices, replace the last index with its product with
the scaling factor before invoking the map, then replace the last coordinate
of the result with its quotient by the scaling factor, keeping the initial
indices unchanged.  Written with positional replacement of the last element to
be compared with the code-side rewrite scaleIndexMap. -/
def scalingAdapterSpec (m : IndexMap) (s : Nat) : IndexMap where
  initial_indices := m.initial_indices
  map_indices := fun xs =>
    let ys := m.map_indices (xs.set (xs.length - 1) (lastD xs * s))
    ys.set (ys.length - 1) (lastD ys / s)

/-- Apply a two-index map to a pair, as the unpacking
permutate_i, permutate_j = map.map_indices([i, j]) in the source; defaults to
(0, 0) when the map does not return exactly two coordinates. -/
def pairApply (m : IndexMap) (i j : Nat) : Nat × Nat :=
  match m.map_indices [i, j] with
  | [a, b] => (a, b)
  | _ => (0, 0)

/-- All coordinate pairs of an l x r tile, row-major. -/
def tilePairs (l r : Nat) : List (Nat × Nat) :=
  (List.range l).flatMap fun a => (List.range r).map fun b => (a, b)

/-- Modelled from the spec: tvm.tir.IndexMap.inverse([l, r]) (the tvm method is
external to the repository), the inverse of a bijective two-index map over the
l x r tile domain, realized by searching the domain for the preimage. -/
def IndexMap.inverseOn (m : IndexMap) (l r : Nat) : IndexMap where
  initial_indices := m.initial_indices
  map_indices := fun xs =>
    match xs with
    | [i, j] =>
      match (tilePairs l r).find? (fun p => decide (m.map_indices [p.1, p.2] = [i, j])) with
      | some p => [p.1, p.2]
      | none => [0, 0]
    | other => other

/-- A two-index map is a bijection of the l x r tile: on every tile coordinate
pair it returns exactly two coordinates, lands inside the tile, and is
injective (the CoordinateMap invariant of spec section 3). -/
def bijOnTile (m : IndexMap) (l r : Nat) : Prop :=
  (∀ p ∈ tilePairs l r, (m.map_indices [p.1, p.2]).length = 2) ∧
  (∀ p ∈ tilePairs l r, pairApply m p.1 p.2 ∈ tilePairs l r) ∧
  ∀ p ∈ tilePairs l r, ∀ q ∈ tilePairs l r,
    m.map_indices [p.1, p.2] = m.map_indices [q.1, q.2] → p = q

instance (m : IndexMap) (l r : Nat) : Decidable (bijOnTile m l r) := by
  unfold bijOnTile; infer_instance

/-- Concrete coordinate map used to instantiate hypotheses of the claims:
a two-index map that reverses (swaps) its index tuple. -/
def swapMap : IndexMap where
  initial_indices := [0, 1]
  map_indices := fun xs => xs.reverse

/-- The identity coordinate map, a concrete valid layout-table entry. -/
def idMap : IndexMap where
  initial_indices := [0, 1]
  map_indices := fun xs => xs

namespace LadderPermutate

/-- Tile geometry from ladder_permutate_impl.py lines 28-30: l = r = 16 by
default; 16 x 32 for the byte-class datatypes. -/
def tileGeometry (datatype : String) : Nat × Nat :=
  if datatype = "int8" ∨ datatype = "e4m3_float8" ∨ datatype = "e5m2_float8"
  then (16, 32) else (16, 16)

/-- Modelled from the spec: the bit width of a datatype tag, the semantics of
tvm DataType(dtype).bits (the tvm DataType class is external to the
repository) on the datatype and storage-datatype tags admitted by
select_implementation; 0 on other tags. -/
def dtypeBits (dtype : String) : Nat :=
  if dtype = "float16" ∨ dtype = "bfloat16" then 16
  else if dtype = "int8" ∨ dtype = "uint8" ∨ dtype = "e4m3_float8" ∨ dtype = "e5m2_float8" then 8
  else if dtype = "int32" ∨ dtype = "uint32" then 32
  else 0

/-- The guard of ladder_permutate_impl.py line 38:
dequantize_bits > 0 and dequantize_bits < target_dtype.bits. -/
def scalingActive (datatype : String) (dequantize_bits : Int) : Bool :=
  decide (0 < dequantize_bits ∧ dequantize_bits < (dtypeBits datatype : Int))

/-- The scaling-factor formula of lines 39-40:
(target bits // dequantize bits) * storage bits // target bits, with Python
floor division on nonnegative integers. -/
def computeScalingFactor (datatype storage_dtype : String) (dequantize_bits : Int) : Nat :=
  dtypeBits datatype / dequantize_bits.toNat * dtypeBits storage_dtype / dtypeBits datatype

/-- The scaling factor in effect after lines 37-41: the computed factor when
scaling is active, otherwise the initial value 1. -/
def scalingOf (datatype storage_dtype : String) (dequantize_bits : Int) : Nat :=
  if scalingActive datatype dequantize_bits
  then computeScalingFactor datatype storage_dtype dequantize_bits else 1

/-- The tile column count r after line 41 (r = r // scaling_factor when
scaling is active). -/
def effectiveR (datatype storage_dtype : String) (dequantize_bits : Int) : Nat :=
  if scalingActive datatype dequantize_bits
  then (tileGeometry datatype).2 / scalingOf datatype storage_dtype dequantize_bits
  else (tileGeometry datatype).2

/-- The intra-warp map after the optional rewrite of lines 42-52, starting
from the map fetched from the external get_propagate_map table (lines 31-32). -/
def effectiveIntraMap (datatype storage_dtype propagate_kind : String)
    (dequantize_bits : Int) (transpose_matrix : Bool)
    (get_propagate_map : Bool → String → String → IndexMap × IndexMap) : IndexMap :=
  let base := (get_propagate_map transpose_matrix datatype propagate_kind).1
  if scalingActive datatype dequantize_bits
  then scaleIndexMap base (scalingOf datatype storage_dtype dequantize_bits) else base

/-- The ladder-stage-3 map after the optional rewrite of lines 54-64, starting
from the map fetched from the external get_ladder_stage3_map table (line 34). -/
def effectiveStage3Map (datatype storage_dtype : String) (dequantize_bits : Int)
    (get_ladder_stage3_map : String → IndexMap × IndexMap) : IndexMap :=
  let base := (get_ladder_stage3_map datatype).1
  if scalingActive datatype dequantize_bits
  then scaleIndexMap base (scalingOf datatype storage_dtype dequantize_bits) else base

/-- The failure modes of select_implementation: the ValueError raised for a
target instruction other than nvidia-mma (line 24), the AssertionError raised
for transform_kind = 0 (line 69), and the Python ZeroDivisionError raised at
line 41 when the computed scaling factor is 0. -/
inductive Err where
  | invalidTargetInstruction
  | invalidTransformKind
  | zeroDivisionError
deriving DecidableEq

/-- The externally visible transformation program: the input placeholder shape
(line 66), the output tensor shape, and the composed per-element index
function sending an output coordinate to the input coordinate it reads (after
line 113 the program retains only the input and the last stage, with the
intermediate stage accesses composed). -/
structure LadderProg where
  inputShape : Nat × Nat
  outShape : List Nat
  elem : Nat → Nat → Nat → Nat → Nat × Nat

/-- The output tensor shape of a built program, empty on failure. -/
def progShape (e : Except Err LadderProg) : List Nat :=
  match e with
  | .ok p => p.outShape
  | .error _ => []

/-- The per-element index function of a built program, constant on failure. -/
def progElem (e : Except Err LadderProg) (i j ii jj : Nat) : Nat × Nat :=
  match e with
  | .ok p => p.elem i j ii jj
  | .error _ => (0, 0)

/-- The stage-1 access function (lines 73-77): the pure reshape of the input
into l x r tiles, identity on elements. -/
def interWarpElem (l r : Nat) (i j ii jj : Nat) : Nat × Nat :=
  (i * l + ii, j * r + jj)

/-- The stage-2 access function composed with stage 1 (lines 79-94): the
intra-warp map applied to the two within-tile coordinates, the tile-index
coordinates passed through. -/
def intraWarpElem (intra : IndexMap) (l r : Nat) (i j ii jj : Nat) : Nat × Nat :=
  let p := pairApply intra ii jj
  interWarpElem l r i j p.1 p.2

/-- The stage-3 access function composed with stages 1 and 2 (lines 95-112):
the inverse of the ladder-stage-3 map over the l x r tile applied to the two
within-tile coordinates, the tile-index coordinates passed through. -/
def stage3Elem (intra stage3 : IndexMap) (l r : Nat) (i j ii jj : Nat) : Nat × Nat :=
  let p := pairApply (IndexMap.inverseOn stage3 l r) ii jj
  intraWarpElem intra l r i j p.1 p.2

/-- The ladder permutation builder select_implementation of
ladder_permutate_impl.py, parameterized by the two external layout-table
collaborators get_propagate_map and get_ladder_stage3_map (imported from
bitblas.gpu.matmul_analysis, outside this core; each returns a map and its
precomputed inverse, of which the source uses only the first component). -/
def select_implementation (M N : Nat) (datatype : String) (dequantize_bits : Int)
    (storage_dtype : String) (propagate_kind : String) (transpose_matrix : Bool)
    (transform_kind : Nat) (target_instruction : String)
    (get_propagate_map : Bool → String → String → IndexMap × IndexMap)
    (get_ladder_stage3_map : String → IndexMap × IndexMap) :
    Except Err LadderProg :=
  if target_instruction ≠ "nvidia-mma" then .error .invalidTargetInstruction else
  let l := (tileGeometry datatype).1
  let s := scalingOf datatype storage_dtype dequantize_bits
  if scalingActive datatype dequantize_bits ∧ s = 0 then .error .zeroDivisionError else
  let r := effectiveR datatype storage_dtype dequantize_bits
  let intra := effectiveIntraMap datatype storage_dtype propagate_kind dequantize_bits
    transpose_matrix get_propagate_map
  let stage3 := effectiveStage3Map datatype storage_dtype dequantize_bits get_ladder_stage3_map
  if transform_kind = 0 then .error .invalidTransformKind else
  Except.ok
    { inputShape := (M, N / s)
      outShape := [M / l, N / s / r, l, r]
      elem := if 3 ≤ transform_kind then stage3Elem intra stage3 l r
              else if 2 ≤ transform_kind then intraWarpElem intra l r
              else interWarpElem l r }

/-- A layout-table collaborator whose every entry is the identity map. -/
def idLookupPropagate : Bool → String → String → IndexMap × IndexMap :=
  fun _ _ _ => (idMap, idMap)

/-- A stage-3 layout-table collaborator whose every entry is the identity map. -/
def idLookupStage3 : String → IndexMap × IndexMap :=
  fun _ => (idMap, idMap)

/-- A layout-table collaborator whose every entry is the coordinate swap. -/
def swapLookupPropagate : Bool → String → String → IndexMap × IndexMap :=
  fun _ _ _ => (swapMap, swapMap)

end LadderPermutate

namespace MatmulImpl

/-- The four dataflow-graph builders dispatched by select_implementation in
matmul_impl.py, abstracted to tags carrying the forwarded arguments: matmul
(with its layout string), matmul_nt_propagate_a, matmul_nt_propagate_b and
matmul_nt_propagate_a_propagate_b. -/
inductive MatmulGraph where
  | plain (M N K : Nat) (in_dtype out_dtype accum_dtype : String)
      (with_bias : Bool) (layout : String)
  | nt_propagate_a (M N K : Nat) (in_dtype out_dtype accum_dtype : String) (with_bias : Bool)
  | nt_propagate_b (M N K : Nat) (in_dtype out_dtype accum_dtype : String) (with_bias : Bool)
  | nt_propagate_a_propagate_b (M N K : Nat) (in_dtype out_dtype accum_dtype : String)
      (with_bias : Bool)
deriving DecidableEq

/-- The failure mode of the matmul select_implementation: the ValueError
raised at lines 368-371 for propagation with the nn layout and at line 390 for
an unrecognized layout string. -/
inductive MatmulErr where
  | unsupportedLayout
deriving DecidableEq

/-- The graph shape the nt branch selects from the two propagation flags
(lines 374-389). -/
def ntGraph (M N K : Nat) (in_dtype out_dtype accum_dtype : String) (with_bias : Bool)
    (propagate_a propagate_b : Bool) : MatmulGraph :=
  if propagate_a && propagate_b then
    .nt_propagate_a_propagate_b M N K in_dtype out_dtype accum_dtype with_bias
  else if propagate_a then .nt_propagate_a M N K in_dtype out_dtype accum_dtype with_bias
  else if propagate_b then .nt_propagate_b M N K in_dtype out_dtype accum_dtype with_bias
  else .plain M N K in_dtype out_dtype accum_dtype with_bias "nt"

/-- The matmul layout selector select_implementation of matmul_impl.py lines
356-390. -/
def select_implementation (M N K : Nat) (in_dtype out_dtype accum_dtype : String)
    (with_bias : Bool) (layout : String) (propagate_a propagate_b : Bool) :
    Except MatmulErr MatmulGraph :=
  if layout = "nn" then
    if propagate_a || propagate_b then .error .unsupportedLayout
    else .ok (.plain M N K in_dtype out_dtype accum_dtype with_bias layout)
  else if layout = "nt" then
    .ok (ntGraph M N K in_dtype out_dtype accum_dtype with_bias propagate_a propagate_b)
  else .error .unsupportedLayout

end MatmulImpl

theorem lastD_setLast (xs : List Nat) (v : Nat) : lastD (setLast xs v) = v :=
  List.getLastD_concat _ _ _

theorem setLast_setLast (xs : List Nat) (a b : Nat) :
    setLast (setLast xs a) b = setLast xs b := by
  simp [setLast, List.dropLast_concat]

theorem set_length_sub_one (xs : List Nat) (v : Nat) (h : xs ≠ []) :
    xs.set (xs.length - 1) v = setLast xs v := by
  induction xs with
  | nil => exact absurd rfl h
  | cons x t ih =>
    cases t with
    | nil => rfl
    | cons y t' =>
      have h1 : (x :: y :: t').length - 1 = t'.length + 1 := by simp
      rw [h1]
      show x :: (y :: t').set t'.length v = setLast (x :: y :: t') v
      have h2 : (y :: t').length - 1 = t'.length := by simp
      rw [← h2, ih (by simp)]
      simp [setLast]

theorem mem_tilePairs {l r : Nat} {p : Nat × Nat} :
    p ∈ tilePairs l r ↔ p.1 < l ∧ p.2 < r := by
  cases p with
  | mk a b => simp [tilePairs, List.mem_flatMap, List.mem_range]

theorem inverseOn_pairApply (m : IndexMap) (l r : Nat) (hbij : bijOnTile m l r)
    (a b : Nat) (ha : a < l) (hb : b < r) :
    pairApply (IndexMap.inverseOn m l r) (pairApply m a b).1 (pairApply m a b).2 = (a, b) := by
  obtain ⟨har, _, hinj⟩ := hbij
  have hmem : (a, b) ∈ tilePairs l r := mem_tilePairs.mpr ⟨ha, hb⟩
  have hlen := har (a, b) hmem
  have hex : ∃ x y, m.map_indices [a, b] = [x, y] := by
    cases hys : m.map_indices [a, b] with
    | nil => rw [hys] at hlen; simp at hlen
    | cons x t =>
      cases t with
      | nil => rw [hys] at hlen; simp at hlen
      | cons y t' =>
        cases t' with
        | nil => exact ⟨x, y, rfl⟩
        | cons z t2 => rw [hys] at hlen; simp at hlen
  obtain ⟨x, y, hys⟩ := hex
  have hpa : pairApply m a b = (x, y) := by simp [pairApply, hys]
  have hfind : ∀ q, (tilePairs l r).find?
      (fun p => decide (m.map_indices [p.1, p.2] = [x, y])) = some q → q = (a, b) := by
    intro q hq
    have hqmem := List.mem_of_find?_eq_some hq
    have hqpred := List.find?_some hq
    simp only [decide_eq_true_eq] at hqpred
    exact hinj q hqmem (a, b) hmem (by rw [hqpred, hys])
  have hnone : (tilePairs l r).find?
      (fun p => decide (m.map_indices [p.1, p.2] = [x, y])) ≠ none := by
    intro hn
    have hcontra := List.find?_eq_none.mp hn (a, b) hmem
    exact hcontra (by simp [hys])
  rw [hpa]
  cases hfq : (tilePairs l r).find? (fun p => decide (m.map_indices [p.1, p.2] = [x, y])) with
  | none => exact absurd hfq hnone
  | some q =>
    have hq := hfind q hfq
    simp [pairApply, IndexMap.inverseOn, hfq, hq]

theorem idMap_bijOnTile (l r : Nat) : bijOnTile idMap l r := by
  refine ⟨fun p _ => rfl, fun p hp => ?_, fun p _ q _ h => ?_⟩
  · simpa [pairApply, idMap] using hp
  · cases p with
    | mk p1 p2 =>
      cases q with
      | mk q1 q2 =>
        simp [idMap] at h
        obtain ⟨h1, h2⟩ := h
        rw [h1, h2]

/-- Claim C3: for every CoordinateMap and scaling factor s ≥ 1, the scaling
rewrite returns a new map with the same arity and unchanged initial indices
whose mapping multiplies the last input index by s, applies the original map,
and divides the last output coordinate by s (the original map is a separate
value and is not modified).  Stated as a refinement between the code-side
rewrite (scaleIndexMap, from the source) and the spec-side contract
(scalingAdapterSpec, from the spec's words). -/
theorem scaling_rewrite_spec_refinement (m : IndexMap) (s : Nat) (hs : 1 ≤ s)
    (xs : List Nat) (hxs : xs ≠ [])
    (hys : m.map_indices (setLast xs (lastD xs * s)) ≠ []) :
    (scaleIndexMap m s).initial_indices = m.initial_indices ∧
    (scaleIndexMap m s).initial_indices.length = m.initial_indices.length ∧
    (scaleIndexMap m s).map_indices xs = (scalingAdapterSpec m s).map_indices xs := by
  refine ⟨rfl, rfl, ?_⟩
  simp only [scaleIndexMap, scalingAdapterSpec]
  rw [set_length_sub_one xs _ hxs, set_length_sub_one _ _ hys]

/-- Witness for C3 at the concrete map swapMap, factor 2 and input tuple. -/
theorem scaling_rewrite_spec_refinement_witness :
    1 ≤ 2 ∧ ([1, 3] : List Nat) ≠ [] ∧
    swapMap.map_indices (setLast [1, 3] (lastD [1, 3] * 2)) ≠ [] ∧
    ((scaleIndexMap swapMap 2).initial_indices = swapMap.initial_indices ∧
     (scaleIndexMap swapMap 2).initial_indices.length = swapMap.initial_indices.length ∧
     (scaleIndexMap swapMap 2).map_indices [1, 3]
       = (scalingAdapterSpec swapMap 2).map_indices [1, 3]) :=
  ⟨by decide, by decide, by decide,
    scaling_rewrite_spec_refinement swapMap 2 (by decide) [1, 3] (by decide) (by decide)⟩

/-- Claim C4: applying the scaling rewrite with factor s1 and then with factor
s2 gives a map that agrees with the single rewrite by s1 * s2 on every index
tuple, with the same initial indices. -/
theorem scaling_rewrite_compose (m : IndexMap) (s1 s2 : Nat) (xs : List Nat) :
    (scaleIndexMap (scaleIndexMap m s1) s2).map_indices xs
      = (scaleIndexMap m (s1 * s2)).map_indices xs ∧
    (scaleIndexMap (scaleIndexMap m s1) s2).initial_indices
      = (scaleIndexMap m (s1 * s2)).initial_indices := by
  constructor
  · have hmul : lastD xs * s2 * s1 = lastD xs * (s1 * s2) := by ring
    simp only [scaleIndexMap, lastD_setLast, setLast_setLast, hmul, Nat.div_div_eq_div_mul]
  · rfl

namespace LadderPermutate

theorem select_ok_form (M N : Nat) (dt : String) (dq : Int) (sdt pk : String)
    (tm : Bool) (tk : Nat)
    (gp : Bool → String → String → IndexMap × IndexMap)
    (gl : String → IndexMap × IndexMap)
    (hs : 0 < scalingOf dt sdt dq) (htk : tk ≠ 0) :
    select_implementation M N dt dq sdt pk tm tk "nvidia-mma" gp gl = Except.ok
      { inputShape := (M, N / scalingOf dt sdt dq)
        outShape := [M / (tileGeometry dt).1,
          N / scalingOf dt sdt dq / effectiveR dt sdt dq,
          (tileGeometry dt).1, effectiveR dt sdt dq]
        elem := if 3 ≤ tk then
            stage3Elem (effectiveIntraMap dt sdt pk dq tm gp)
              (effectiveStage3Map dt sdt dq gl) (tileGeometry dt).1 (effectiveR dt sdt dq)
          else if 2 ≤ tk then
            intraWarpElem (effectiveIntraMap dt sdt pk dq tm gp)
              (tileGeometry dt).1 (effectiveR dt sdt dq)
          else interWarpElem (tileGeometry dt).1 (effectiveR dt sdt dq) } := by
  have hne : ¬(("nvidia-mma" : String) ≠ "nvidia-mma") := fun h => h rfl
  have hnz : ¬(scalingActive dt dq = true ∧ scalingOf dt sdt dq = 0) := by
    rintro ⟨-, h0⟩
    omega
  simp only [select_implementation]
  rw [if_neg hne, if_neg hnz, if_neg htk]

theorem select_elem_one (M N : Nat) (dt : String) (dq : Int) (sdt pk : String)
    (tm : Bool) (gp : Bool → String → String → IndexMap × IndexMap)
    (gl : String → IndexMap × IndexMap) (i j ii jj : Nat)
    (hs : 0 < scalingOf dt sdt dq) :
    progElem (select_implementation M N dt dq sdt pk tm 1 "nvidia-mma" gp gl) i j ii jj
      = interWarpElem (tileGeometry dt).1 (effectiveR dt sdt dq) i j ii jj := by
  rw [select_ok_form M N dt dq sdt pk tm 1 gp gl hs (by omega)]
  rfl

theorem select_elem_two (M N : Nat) (dt : String) (dq : Int) (sdt pk : String)
    (tm : Bool) (gp : Bool → String → String → IndexMap × IndexMap)
    (gl : String → IndexMap × IndexMap) (i j ii jj : Nat)
    (hs : 0 < scalingOf dt sdt dq) :
    progElem (select_implementation M N dt dq sdt pk tm 2 "nvidia-mma" gp gl) i j ii jj
      = intraWarpElem (effectiveIntraMap dt sdt pk dq tm gp)
          (tileGeometry dt).1 (effectiveR dt sdt dq) i j ii jj := by
  rw [select_ok_form M N dt dq sdt pk tm 2 gp gl hs (by omega)]
  rfl

theorem select_elem_three (M N : Nat) (dt : String) (dq : Int) (sdt pk : String)
    (tm : Bool) (gp : Bool → String → String → IndexMap × IndexMap)
    (gl : String → IndexMap × IndexMap) (i j ii jj : Nat)
    (hs : 0 < scalingOf dt sdt dq) :
    progElem (select_implementation M N dt dq sdt pk tm 3 "nvidia-mma" gp gl) i j ii jj
      = stage3Elem (effectiveIntraMap dt sdt pk dq tm gp)
          (effectiveStage3Map dt sdt dq gl)
          (tileGeometry dt).1 (effectiveR dt sdt dq) i j ii jj := by
  rw [select_ok_form M N dt dq sdt pk tm 3 gp gl hs (by omega)]
  rfl

/-- Claim C7 (amended): the tile-geometry computation returns (16, 32) for the
byte-class datatypes int8, e4m3_float8 and e5m2_float8 and the default
(16, 16) for every other datatype tag, whether recognized or not; it is a
total computation with no failure path. -/
theorem tile_geometry_cases (d : String) :
    (d = "int8" ∨ d = "e4m3_float8" ∨ d = "e5m2_float8" → tileGeometry d = (16, 32)) ∧
    (¬(d = "int8" ∨ d = "e4m3_float8" ∨ d = "e5m2_float8") → tileGeometry d = (16, 16)) :=
  ⟨fun h => by unfold tileGeometry; rw [if_pos h],
   fun h => by unfold tileGeometry; rw [if_neg h]⟩

/-- Witness for C7 on a byte-class tag and on the half-precision default. -/
theorem tile_geometry_cases_witness :
    tileGeometry "int8" = (16, 32) ∧ tileGeometry "float16" = (16, 16) :=
  ⟨(tile_geometry_cases "int8").1 (Or.inl rfl),
   (tile_geometry_cases "float16").2 (by decide)⟩

/-- Claim C7, counterexample: the unrecognized datatype tag int4 is outside
the recognized datatype list, yet the tile-geometry computation returns the
default (16, 16) for it instead of failing with UnsupportedDatatype: lines
28-30 of the source have no failure path. -/
theorem tile_geometry_unrecognized_default :
    ("int4" ∉ ["float16", "bfloat16", "int8", "e4m3_float8", "e5m2_float8"]) ∧
    tileGeometry "int4" = (16, 16) :=
  ⟨by decide, by decide⟩

/-- Claim C10: for every target instruction other than nvidia-mma,
select_implementation fails immediately with the ValueError guard of lines
23-24, regardless of all other arguments. -/
theorem reject_unsupported_target_instruction (M N : Nat) (dt : String) (dq : Int)
    (sdt pk : String) (tm : Bool) (tk : Nat) (ti : String)
    (gp : Bool → String → String → IndexMap × IndexMap)
    (gl : String → IndexMap × IndexMap)
    (hti : ti ≠ "nvidia-mma") :
    select_implementation M N dt dq sdt pk tm tk ti gp gl
      = .error .invalidTargetInstruction := by
  unfold select_implementation
  rw [if_pos hti]

/-- Witness for C10 at a concrete non-nvidia target instruction. -/
theorem reject_unsupported_target_instruction_witness :
    select_implementation 16 16 "float16" (-1) "float16" "B" false 1 "amd-matrix-core"
      idLookupPropagate idLookupStage3 = .error .invalidTargetInstruction :=
  reject_unsupported_target_instruction 16 16 "float16" (-1) "float16" "B" false 1
    "amd-matrix-core" idLookupPropagate idLookupStage3 (by decide)

/-- Claim C6 (amended): with the nvidia-mma target and otherwise valid inputs,
select_implementation fails with the transform-kind assertion exactly when the
requested transform kind is 0; every transform kind at least 1 succeeds,
transform kinds above 3 included (they behave as 3). -/
theorem transform_kind_error_iff (M N : Nat) (dt : String) (dq : Int)
    (sdt pk : String) (tm : Bool) (tk : Nat)
    (gp : Bool → String → String → IndexMap × IndexMap)
    (gl : String → IndexMap × IndexMap)
    (hdt : dt ∈ ["float16", "bfloat16", "int8", "e4m3_float8", "e5m2_float8"])
    (hsdt : sdt ∈ ["float16", "int8", "uint8", "int32", "uint32"])
    (hs : 0 < scalingOf dt sdt dq)
    (hbij : bijOnTile (effectiveStage3Map dt sdt dq gl)
      (tileGeometry dt).1 (effectiveR dt sdt dq)) :
    (select_implementation M N dt dq sdt pk tm tk "nvidia-mma" gp gl
        = .error .invalidTransformKind ↔ tk = 0) ∧
    (1 ≤ tk →
      (select_implementation M N dt dq sdt pk tm tk "nvidia-mma" gp gl).isOk = true) := by
  have hne : ¬(("nvidia-mma" : String) ≠ "nvidia-mma") := fun h => h rfl
  have hnz : ¬(scalingActive dt dq = true ∧ scalingOf dt sdt dq = 0) := by
    rintro ⟨-, h0⟩
    omega
  constructor
  · constructor
    · intro h
      by_contra htk
      rw [select_ok_form M N dt dq sdt pk tm tk gp gl hs htk] at h
      exact absurd h (by simp)
    · intro h
      subst h
      simp only [select_implementation]
      rw [if_neg hne, if_neg hnz]
      simp
  · intro h
    rw [select_ok_form M N dt dq sdt pk tm tk gp gl hs (by omega)]
    rfl

/-- Witness for C6 with valid concrete inputs and transform kind 2. -/
theorem transform_kind_error_iff_witness :
    (("float16" : String) ∈ ["float16", "bfloat16", "int8", "e4m3_float8", "e5m2_float8"]) ∧
    (("float16" : String) ∈ ["float16", "int8", "uint8", "int32", "uint32"]) ∧
    0 < scalingOf "float16" "float16" (-1) ∧
    bijOnTile (effectiveStage3Map "float16" "float16" (-1) idLookupStage3)
      (tileGeometry "float16").1 (effectiveR "float16" "float16" (-1)) ∧
    ((select_implementation 32 32 "float16" (-1) "float16" "B" false 2 "nvidia-mma"
        idLookupPropagate idLookupStage3 = .error .invalidTransformKind ↔ (2 : Nat) = 0) ∧
     (1 ≤ 2 →
       (select_implementation 32 32 "float16" (-1) "float16" "B" false 2 "nvidia-mma"
         idLookupPropagate idLookupStage3).isOk = true)) :=
  ⟨by decide, by decide, by decide, idMap_bijOnTile 16 16,
    transform_kind_error_iff 32 32 "float16" (-1) "float16" "B" false 2
      idLookupPropagate idLookupStage3 (by decide) (by decide) (by decide)
      (idMap_bijOnTile 16 16)⟩

/-- Claim C6, counterexample: transform kind 4, which the claim says must fail
with InvalidTransformKind, instead succeeds (the source only asserts
transform_kind different from 0 and treats every kind at least 3 as 3). -/
theorem transform_kind_four_succeeds :
    (select_implementation 32 32 "float16" (-1) "float16" "B" false 4 "nvidia-mma"
      idLookupPropagate idLookupStage3).isOk = true := by decide

end LadderPermutate

namespace LadderPermutate

/-- Claim C5 (amended): the scaling-factor computation and the last-coordinate
division both use floor division; non-exact results are silently truncated and
there is no ScalingMismatch failure: with the nvidia-mma target, recognized
datatype tags, a positive computed scaling factor and a transform kind of at
least 1, select_implementation always succeeds, exact or not. -/
theorem scaling_never_fails (M N : Nat) (dt : String) (dq : Int) (sdt pk : String)
    (tm : Bool) (tk : Nat)
    (gp : Bool → String → String → IndexMap × IndexMap)
    (gl : String → IndexMap × IndexMap)
    (hdt : dt ∈ ["float16", "bfloat16", "int8", "e4m3_float8", "e5m2_float8"])
    (hsdt : sdt ∈ ["float16", "int8", "uint8", "int32", "uint32"])
    (hk : 1 ≤ tk) (hs : 0 < scalingOf dt sdt dq)
    (hbij : bijOnTile (effectiveStage3Map dt sdt dq gl)
      (tileGeometry dt).1 (effectiveR dt sdt dq)) :
    (select_implementation M N dt dq sdt pk tm tk "nvidia-mma" gp gl).isOk = true := by
  rw [select_ok_form M N dt dq sdt pk tm tk gp gl hs (by omega)]
  rfl

/-- Witness for C5 at the non-exact configuration float16 with 3 dequantize
bits (exact value 16/3, computed factor 5). -/
theorem scaling_never_fails_witness :
    (("float16" : String) ∈ ["float16", "bfloat16", "int8", "e4m3_float8", "e5m2_float8"]) ∧
    (("float16" : String) ∈ ["float16", "int8", "uint8", "int32", "uint32"]) ∧
    (1 : Nat) ≤ 1 ∧ 0 < scalingOf "float16" "float16" 3 ∧
    bijOnTile (effectiveStage3Map "float16" "float16" 3 idLookupStage3)
      (tileGeometry "float16").1 (effectiveR "float16" "float16" 3) ∧
    (select_implementation 64 64 "float16" 3 "float16" "B" false 1 "nvidia-mma"
      idLookupPropagate idLookupStage3).isOk = true :=
  ⟨by decide, by decide, by decide, by decide, by decide,
    scaling_never_fails 64 64 "float16" 3 "float16" "B" false 1
      idLookupPropagate idLookupStage3 (by decide) (by decide) (by decide) (by decide)
      (by decide)⟩

/-- Claim C5, counterexample: with datatype float16 and 3 dequantize bits, the
exact value of (native bits / quant bits) * storage bits / native bits is
16/3, not an integer, yet the computed factor is the truncated 5 and the build
succeeds with no ScalingMismatch error; likewise the last-coordinate division
of the scaling rewrite floor-divides an odd last coordinate (3 // 2 = 1)
without any error. -/
theorem scaling_truncates_silently :
    scalingOf "float16" "float16" 3 = 5 ∧
    ((16 : ℚ) / 3 * 16 / 16) ≠ 5 ∧
    (select_implementation 64 64 "float16" 3 "float16" "B" false 1 "nvidia-mma"
      idLookupPropagate idLookupStage3).isOk = true ∧
    (scaleIndexMap swapMap 2).map_indices [3, 0] = [0, 1] ∧ ¬((2 : Nat) ∣ 3) :=
  ⟨by decide, by norm_num, by decide, by decide, by decide⟩

/-- Claim C1 (amended): the end-to-end example M=256, N=256, datatype int8,
4 dequantize bits, storage int8, role B, transpose, 3 stages succeeds with
scaling factor 2 and adjusted r = 16, and the output tensor shape is
(16, 8, 16, 16): the column tile count is (256 / 2) / 16 = 8 because N is
scaling-adjusted before tiling. -/
theorem ladder_permutate_int8_end_to_end
    (gp : Bool → String → String → IndexMap × IndexMap)
    (gl : String → IndexMap × IndexMap) :
    scalingOf "int8" "int8" 4 = 2 ∧
    effectiveR "int8" "int8" 4 = 16 ∧
    (select_implementation 256 256 "int8" 4 "int8" "B" true 3 "nvidia-mma" gp gl).isOk
      = true ∧
    progShape (select_implementation 256 256 "int8" 4 "int8" "B" true 3 "nvidia-mma" gp gl)
      = [16, 8, 16, 16] := by
  refine ⟨by decide, by decide, ?_, ?_⟩
  · rw [select_ok_form 256 256 "int8" 4 "int8" "B" true 3 gp gl (by decide) (by decide)]
    rfl
  · rw [select_ok_form 256 256 "int8" 4 "int8" "B" true 3 gp gl (by decide) (by decide)]
    rfl

/-- Claim C1, counterexample: the end-to-end example's output tensor shape is
(16, 8, 16, 16) and not the (16, 16, 16, 16) the claim states. -/
theorem ladder_permutate_int8_shape_counterexample :
    progShape (select_implementation 256 256 "int8" 4 "int8" "B" true 3 "nvidia-mma"
        idLookupPropagate idLookupStage3) = [16, 8, 16, 16] ∧
    progShape (select_implementation 256 256 "int8" 4 "int8" "B" true 3 "nvidia-mma"
        idLookupPropagate idLookupStage3) ≠ [16, 16, 16, 16] :=
  ⟨by decide, by decide⟩

end LadderPermutate

namespace LadderPermutate

/-- Claim C2: for valid inputs (tile dimensions dividing the scaled matrix
dimensions, positive scaling factor), the programs built with transform kinds
1, 2 and 3 all succeed and every one of them has the output shape
(M / l, (N / s) / r, l, r) with s the scaling factor; with kind 1 the
per-element mapping is the identity reshape sending (i, j, ii, jj) to input
element (i*l+ii, j*r+jj); with kinds 2 and 3 the shape is unchanged while the
per-element mapping differs from the kind-1 mapping as soon as the (possibly
scaled) intra-warp map, respectively its composition with the stage-3 inverse,
moves the within-tile point supplied by the hypotheses. -/
theorem stage_shapes_and_mappings (M N : Nat) (dt : String) (dq : Int)
    (sdt pk : String) (tm : Bool)
    (gp : Bool → String → String → IndexMap × IndexMap)
    (gl : String → IndexMap × IndexMap)
    (i j ii jj a b a3 b3 : Nat)
    (hs : 0 < scalingOf dt sdt dq)
    (hM : (tileGeometry dt).1 ∣ M)
    (hN : effectiveR dt sdt dq ∣ (N / scalingOf dt sdt dq))
    (hmove2 : pairApply (effectiveIntraMap dt sdt pk dq tm gp) a b ≠ (a, b))
    (hmove3 : pairApply (effectiveIntraMap dt sdt pk dq tm gp)
        (pairApply (IndexMap.inverseOn (effectiveStage3Map dt sdt dq gl)
          (tileGeometry dt).1 (effectiveR dt sdt dq)) a3 b3).1
        (pairApply (IndexMap.inverseOn (effectiveStage3Map dt sdt dq gl)
          (tileGeometry dt).1 (effectiveR dt sdt dq)) a3 b3).2 ≠ (a3, b3)) :
    ((select_implementation M N dt dq sdt pk tm 1 "nvidia-mma" gp gl).isOk = true ∧
     (select_implementation M N dt dq sdt pk tm 2 "nvidia-mma" gp gl).isOk = true ∧
     (select_implementation M N dt dq sdt pk tm 3 "nvidia-mma" gp gl).isOk = true) ∧
    (progShape (select_implementation M N dt dq sdt pk tm 1 "nvidia-mma" gp gl)
       = [M / (tileGeometry dt).1, N / scalingOf dt sdt dq / effectiveR dt sdt dq,
          (tileGeometry dt).1, effectiveR dt sdt dq] ∧
     progShape (select_implementation M N dt dq sdt pk tm 2 "nvidia-mma" gp gl)
       = [M / (tileGeometry dt).1, N / scalingOf dt sdt dq / effectiveR dt sdt dq,
          (tileGeometry dt).1, effectiveR dt sdt dq] ∧
     progShape (select_implementation M N dt dq sdt pk tm 3 "nvidia-mma" gp gl)
       = [M / (tileGeometry dt).1, N / scalingOf dt sdt dq / effectiveR dt sdt dq,
          (tileGeometry dt).1, effectiveR dt sdt dq]) ∧
    progElem (select_implementation M N dt dq sdt pk tm 1 "nvidia-mma" gp gl) i j ii jj
      = (i * (tileGeometry dt).1 + ii, j * effectiveR dt sdt dq + jj) ∧
    progElem (select_implementation M N dt dq sdt pk tm 2 "nvidia-mma" gp gl) 0 0 a b
      ≠ progElem (select_implementation M N dt dq sdt pk tm 1 "nvidia-mma" gp gl) 0 0 a b ∧
    progElem (select_implementation M N dt dq sdt pk tm 3 "nvidia-mma" gp gl) 0 0 a3 b3
      ≠ progElem (select_implementation M N dt dq sdt pk tm 1 "nvidia-mma" gp gl) 0 0 a3 b3 := by
  refine ⟨⟨?_, ?_, ?_⟩, ⟨?_, ?_, ?_⟩, ?_, ?_, ?_⟩
  · rw [select_ok_form M N dt dq sdt pk tm 1 gp gl hs (by omega)]; rfl
  · rw [select_ok_form M N dt dq sdt pk tm 2 gp gl hs (by omega)]; rfl
  · rw [select_ok_form M N dt dq sdt pk tm 3 gp gl hs (by omega)]; rfl
  · rw [select_ok_form M N dt dq sdt pk tm 1 gp gl hs (by omega)]; rfl
  · rw [select_ok_form M N dt dq sdt pk tm 2 gp gl hs (by omega)]; rfl
  · rw [select_ok_form M N dt dq sdt pk tm 3 gp gl hs (by omega)]; rfl
  · rw [select_elem_one M N dt dq sdt pk tm gp gl i j ii jj hs]; rfl
  · rw [select_elem_two M N dt dq sdt pk tm gp gl 0 0 a b hs,
        select_elem_one M N dt dq sdt pk tm gp gl 0 0 a b hs]
    simp only [intraWarpElem, interWarpElem, Nat.zero_mul, Nat.zero_add]
    exact hmove2
  · rw [select_elem_three M N dt dq sdt pk tm gp gl 0 0 a3 b3 hs,
        select_elem_one M N dt dq sdt pk tm gp gl 0 0 a3 b3 hs]
    simp only [stage3Elem, intraWarpElem, interWarpElem, Nat.zero_mul, Nat.zero_add]
    exact hmove3

/-- Witness for C2 at concrete inputs: float16, no quantization, swap as the
intra-warp table entry and the identity as the stage-3 table entry. -/
theorem stage_shapes_and_mappings_witness :
    0 < scalingOf "float16" "float16" (-1) ∧
    (tileGeometry "float16").1 ∣ 32 ∧
    effectiveR "float16" "float16" (-1) ∣ (32 / scalingOf "float16" "float16" (-1)) ∧
    pairApply (effectiveIntraMap "float16" "float16" "B" (-1) false swapLookupPropagate) 0 1
      ≠ (0, 1) ∧
    pairApply (effectiveIntraMap "float16" "float16" "B" (-1) false swapLookupPropagate)
      (pairApply (IndexMap.inverseOn
        (effectiveStage3Map "float16" "float16" (-1) idLookupStage3)
        (tileGeometry "float16").1 (effectiveR "float16" "float16" (-1))) 0 1).1
      (pairApply (IndexMap.inverseOn
        (effectiveStage3Map "float16" "float16" (-1) idLookupStage3)
        (tileGeometry "float16").1 (effectiveR "float16" "float16" (-1))) 0 1).2
      ≠ (0, 1) ∧
    (((select_implementation 32 32 "float16" (-1) "float16" "B" false 1 "nvidia-mma"
        swapLookupPropagate idLookupStage3).isOk = true ∧
      (select_implementation 32 32 "float16" (-1) "float16" "B" false 2 "nvidia-mma"
        swapLookupPropagate idLookupStage3).isOk = true ∧
      (select_implementation 32 32 "float16" (-1) "float16" "B" false 3 "nvidia-mma"
        swapLookupPropagate idLookupStage3).isOk = true) ∧
     (progShape (select_implementation 32 32 "float16" (-1) "float16" "B" false 1 "nvidia-mma"
        swapLookupPropagate idLookupStage3) = [2, 2, 16, 16] ∧
      progShape (select_implementation 32 32 "float16" (-1) "float16" "B" false 2 "nvidia-mma"
        swapLookupPropagate idLookupStage3) = [2, 2, 16, 16] ∧
      progShape (select_implementation 32 32 "float16" (-1) "float16" "B" false 3 "nvidia-mma"
        swapLookupPropagate idLookupStage3) = [2, 2, 16, 16]) ∧
     progElem (select_implementation 32 32 "float16" (-1) "float16" "B" false 1 "nvidia-mma"
        swapLookupPropagate idLookupStage3) 1 1 2 3 = (18, 19) ∧
     progElem (select_implementation 32 32 "float16" (-1) "float16" "B" false 2 "nvidia-mma"
        swapLookupPropagate idLookupStage3) 0 0 0 1
       ≠ progElem (select_implementation 32 32 "float16" (-1) "float16" "B" false 1 "nvidia-mma"
        swapLookupPropagate idLookupStage3) 0 0 0 1 ∧
     progElem (select_implementation 32 32 "float16" (-1) "float16" "B" false 3 "nvidia-mma"
        swapLookupPropagate idLookupStage3) 0 0 0 1
       ≠ progElem (select_implementation 32 32 "float16" (-1) "float16" "B" false 1 "nvidia-mma"
        swapLookupPropagate idLookupStage3) 0 0 0 1) :=
  ⟨by decide, by decide, by decide, by decide, by decide,
    stage_shapes_and_mappings 32 32 "float16" (-1) "float16" "B" false
      swapLookupPropagate idLookupStage3 1 1 2 3 0 1 0 1
      (by decide) (by decide) (by decide) (by decide) (by decide)⟩

end LadderPermutate

namespace LadderPermutate

/-- Claim C8: with transform kind 3 and the nvidia-mma target, the built
program's access is stage 2's access with the inverse of the (possibly
scaled) ladder-stage-3 map over the (l, r) tile applied to the two
within-tile coordinates, the two tile-index coordinates passed through
unchanged: evaluating the stage-3 program at the forward image of a tile
point recovers stage 2's access at that point (so the stage consumes the
inverse, never the forward map), and at any point it equals stage 2's access
at the inverse image. -/
theorem stage3_uses_inverse_map (M N : Nat) (dt : String) (dq : Int)
    (sdt pk : String) (tm : Bool)
    (gp : Bool → String → String → IndexMap × IndexMap)
    (gl : String → IndexMap × IndexMap) (i j a b ii jj : Nat)
    (hs : 0 < scalingOf dt sdt dq)
    (hbij : bijOnTile (effectiveStage3Map dt sdt dq gl)
      (tileGeometry dt).1 (effectiveR dt sdt dq))
    (ha : a < (tileGeometry dt).1) (hb : b < effectiveR dt sdt dq) :
    progElem (select_implementation M N dt dq sdt pk tm 3 "nvidia-mma" gp gl) i j
        (pairApply (effectiveStage3Map dt sdt dq gl) a b).1
        (pairApply (effectiveStage3Map dt sdt dq gl) a b).2
      = progElem (select_implementation M N dt dq sdt pk tm 2 "nvidia-mma" gp gl) i j a b ∧
    progElem (select_implementation M N dt dq sdt pk tm 3 "nvidia-mma" gp gl) i j ii jj
      = progElem (select_implementation M N dt dq sdt pk tm 2 "nvidia-mma" gp gl) i j
          (pairApply (IndexMap.inverseOn (effectiveStage3Map dt sdt dq gl)
            (tileGeometry dt).1 (effectiveR dt sdt dq)) ii jj).1
          (pairApply (IndexMap.inverseOn (effectiveStage3Map dt sdt dq gl)
            (tileGeometry dt).1 (effectiveR dt sdt dq)) ii jj).2 := by
  constructor
  · rw [select_elem_three M N dt dq sdt pk tm gp gl i j _ _ hs,
        select_elem_two M N dt dq sdt pk tm gp gl i j a b hs]
    simp only [stage3Elem]
    rw [inverseOn_pairApply (effectiveStage3Map dt sdt dq gl)
      (tileGeometry dt).1 (effectiveR dt sdt dq) hbij a b ha hb]
  · rw [select_elem_three M N dt dq sdt pk tm gp gl i j ii jj hs,
        select_elem_two M N dt dq sdt pk tm gp gl i j _ _ hs]
    rfl

/-- Witness for C8 with the identity map as the stage-3 table entry, at a
concrete in-tile point. -/
theorem stage3_uses_inverse_map_witness :
    0 < scalingOf "float16" "float16" (-1) ∧
    bijOnTile (effectiveStage3Map "float16" "float16" (-1) idLookupStage3)
      (tileGeometry "float16").1 (effectiveR "float16" "float16" (-1)) ∧
    (1 : Nat) < (tileGeometry "float16").1 ∧
    (2 : Nat) < effectiveR "float16" "float16" (-1) ∧
    (progElem (select_implementation 32 32 "float16" (-1) "float16" "B" false 3 "nvidia-mma"
        idLookupPropagate idLookupStage3) 0 0
        (pairApply (effectiveStage3Map "float16" "float16" (-1) idLookupStage3) 1 2).1
        (pairApply (effectiveStage3Map "float16" "float16" (-1) idLookupStage3) 1 2).2
      = progElem (select_implementation 32 32 "float16" (-1) "float16" "B" false 2 "nvidia-mma"
          idLookupPropagate idLookupStage3) 0 0 1 2 ∧
     progElem (select_implementation 32 32 "float16" (-1) "float16" "B" false 3 "nvidia-mma"
        idLookupPropagate idLookupStage3) 0 0 3 4
      = progElem (select_implementation 32 32 "float16" (-1) "float16" "B" false 2 "nvidia-mma"
          idLookupPropagate idLookupStage3) 0 0
          (pairApply (IndexMap.inverseOn
            (effectiveStage3Map "float16" "float16" (-1) idLookupStage3)
            (tileGeometry "float16").1 (effectiveR "float16" "float16" (-1))) 3 4).1
          (pairApply (IndexMap.inverseOn
            (effectiveStage3Map "float16" "float16" (-1) idLookupStage3)
            (tileGeometry "float16").1 (effectiveR "float16" "float16" (-1))) 3 4).2) :=
  ⟨by decide, idMap_bijOnTile 16 16, by decide, by decide,
    stage3_uses_inverse_map 32 32 "float16" (-1) "float16" "B" false
      idLookupPropagate idLookupStage3 0 0 1 2 3 4
      (by decide) (idMap_bijOnTile 16 16) (by decide) (by decide)⟩

end LadderPermutate

namespace MatmulImpl

/-- Claim C9: the matmul layout selector fails with UnsupportedLayout on the
nn layout whenever propagation is requested for either operand; on the nt
layout it succeeds and returns the one of the four graph shapes selected by
the two propagation flags, and distinct flag pairs select distinct graph
shapes. -/
theorem matmul_layout_selection (M N K : Nat) (idt odt adt : String) (wb : Bool)
    (pa pb : Bool) (hprop : pa = true ∨ pb = true) :
    select_implementation M N K idt odt adt wb "nn" pa pb = .error .unsupportedLayout ∧
    select_implementation M N K idt odt adt wb "nt" pa pb
      = .ok (ntGraph M N K idt odt adt wb pa pb) ∧
    ∀ pa2 pb2 : Bool,
      ntGraph M N K idt odt adt wb pa pb = ntGraph M N K idt odt adt wb pa2 pb2 →
      pa = pa2 ∧ pb = pb2 := by
  refine ⟨?_, ?_, ?_⟩
  · have hor : (pa || pb) = true := by
      rcases hprop with h | h <;> simp [h]
    simp [select_implementation, hor]
  · simp [select_implementation]
  · intro pa2 pb2 h
    cases pa <;> cases pb <;> cases pa2 <;> cases pb2 <;> simp_all [ntGraph]

/-- Witness for C9 with propagation requested on the left operand. -/
theorem matmul_layout_selection_witness :
    (true = true ∨ false = true) ∧
    select_implementation 16 16 16 "float16" "float16" "float16" false "nn" true false
      = .error .unsupportedLayout ∧
    select_implementation 16 16 16 "float16" "float16" "float16" false "nt" true false
      = .ok (.nt_propagate_a 16 16 16 "float16" "float16" "float16" false) :=
  ⟨Or.inl rfl,
   (matmul_layout_selection 16 16 16 "float16" "float16" "float16" false true false
     (Or.inl rfl)).1,
   (matmul_layout_selection 16 16 16 "float16" "float16" "float16" false true false
     (Or.inl rfl)).2.1⟩

end MatmulImpl
